import Mathlib

/-!
Shallow embedding of `src/journal_reader.py` (rsimai/logreader), a script that
tails the systemd journal, sends each new entry to a Llama HTTP service and
appends the analysis to an output file.  Pure data flow is embedded as Lean
functions; the outcomes of external effects (HTTP calls, file writes, signals)
are passed in explicitly as values of small outcome types, so that the
control flow of the Python code becomes a total Lean function on them.
-/

namespace JournalReader

/-- The character with code 123, an opening curly brace. -/
def lbrace : Char := Char.ofNat 123

/-- The character with code 125, a closing curly brace. -/
def rbrace : Char := Char.ofNat 125

/-- Characters stripped by Python's `str.strip()`, which per character
coincides with `str.isspace()`: the code points 09-0D, 1C-20, 85 (next
line), A0 (no-break space), 1680 (ogham space mark), 2000-200A (typographic
spaces), 2028 and 2029 (line and paragraph separators), 202F, 205F and 3000
(narrow no-break, medium mathematical and ideographic spaces) — CPython's
full Unicode whitespace set. -/
def isPySpace (c : Char) : Bool :=
  let n := c.toNat
  (9 ≤ n && n ≤ 13) || (28 ≤ n && n ≤ 32) || n == 133 || n == 160 ||
  n == 0x1680 || (0x2000 ≤ n && n ≤ 0x200A) || n == 0x2028 || n == 0x2029 ||
  n == 0x202F || n == 0x205F || n == 0x3000

/-- Embedding of Python `str.strip()`: drop leading and trailing whitespace.
Used at line 43 of the script: `response_data.get("response", "").strip()`. -/
def pyStrip (s : String) : String :=
  String.mk (((s.data.dropWhile isPySpace).reverse.dropWhile isPySpace).reverse)

/-- Split a character list at the first closing brace: returns the part
before it and the rest after it, or `none` when there is no closing brace. -/
def spanToR : List Char → Option (List Char × List Char)
  | [] => none
  | c :: cs =>
    if c = rbrace then some ([], cs)
    else
      match spanToR cs with
      | none => none
      | some (n, r) => some (c :: n, r)

/-- The field name accepted by the script's prompt templates. -/
def msgName : List Char := "message".data

/-- Fuel-driven core of the embedding of Python `str.format(message=m)` for
the template language the script uses: `\x7bmessage\x7d` is replaced by the
message, doubled braces denote literal braces, any other replacement field
(unknown name, empty name, unmatched brace) raises, which `none`
models.  Conversion and format specs are not modelled; no template in this
development uses them.  The fuel only serves termination: each step consumes
at least one character, so `fuel = length` never runs out. -/
def renderGo (m : List Char) : Nat → List Char → Option (List Char)
  | _, [] => some []
  | 0, _ :: _ => none
  | fuel + 1, c :: cs =>
    if c = lbrace then
      match cs with
      | [] => none
      | c2 :: cs2 =>
        if c2 = lbrace then (renderGo m fuel cs2).map (fun r => lbrace :: r)
        else
          match spanToR (c2 :: cs2) with
          | none => none
          | some (name, rest) =>
            if name = msgName then (renderGo m fuel rest).map (fun r => m ++ r)
            else none
    else if c = rbrace then
      match cs with
      | [] => none
      | c2 :: cs2 =>
        if c2 = rbrace then (renderGo m fuel cs2).map (fun r => rbrace :: r)
        else none
    else (renderGo m fuel cs).map (fun r => c :: r)

/-- Embedding of line 31 of the script, `prompt_template.format(message=message)`:
renders the template with the message substituted; `none` models the
exception Python raises (`KeyError` for an unknown field, `ValueError` for a
stray brace). -/
def pyFormatMessage (tmpl m : String) : Option String :=
  (renderGo m.data tmpl.data.length tmpl.data).map (fun l => String.mk l)

/-- Value of the `MESSAGE` field of a journal entry: either text or
non-string data such as binary blobs. -/
inductive FieldValue where
  | text (s : String)
  | binary
deriving DecidableEq

/-- Outcome of the `requests.post(llama_url, ...)` call and the subsequent
status check and body parse made by `process_entry` (lines 39-42 of the
script), supplied by the environment:
* `reply f`: a 2xx reply whose body is valid JSON; `f` is the value of its
  `response` field when present (the script defaults a missing field to `""`);
* `badStatus`: a 4xx/5xx reply, so `raise_for_status` raises a
  `requests.exceptions.RequestException`;
* `netFailure`: a network or timeout error, also a `RequestException`;
* `badJson`: a 2xx reply whose body is not valid JSON, so `.json()` raises;
* `interrupt`: a `KeyboardInterrupt` delivered during the call.  It derives
  from `BaseException`, so neither `except RequestException` nor
  `except Exception` at lines 53-56 catches it. -/
inductive InferenceOutcome where
  | reply (respField : Option String)
  | badStatus
  | netFailure
  | badJson
  | interrupt
deriving DecidableEq

/-- External effects relevant to one run of `process_entry`: the outcome of
the HTTP call, and whether the append-mode open/write of the output file at
lines 46-48 succeeds (`writeOk = false` models an `OSError`, which the
`except Exception` branch catches). -/
structure EntryEnv where
  inference : InferenceOutcome
  writeOk : Bool
deriving DecidableEq

/-- The two strings passed to the two `f.write` calls at lines 47-48 of the
script, in order, for a message and a (stripped) analysis text. -/
def entryWrites (message content : String) : List String :=
  ["--- Log Entry ---\n" ++ message ++ "\n",
   "--- Llama Analysis ---\n" ++ content ++ "\n\n"]

/-- Result of one run of `process_entry`:
* `skippedSilently`: the entry had no non-empty string message (lines 26-29);
* `written ws`: the writes `ws` were appended to the output file and an INFO
  line printed (lines 45-49);
* `warnedEmpty`: the stripped response was empty, a WARNING was printed to
  stderr, nothing written (lines 50-51);
* `reportedError`: an exception was caught by one of the two handlers at
  lines 53-56, an ERROR printed to stderr, nothing (more) written;
* `crash`: an exception escaped `process_entry` uncaught — the template
  rendering at line 31 sits outside the `try` block;
* `interrupted`: a `KeyboardInterrupt` escaped `process_entry` (not caught by
  its handlers) and propagates to the caller. -/
inductive ProcResult where
  | skippedSilently
  | written (ws : List String)
  | warnedEmpty
  | reportedError
  | crash
  | interrupted
deriving DecidableEq

/-- Embedding of `process_entry` (lines 22-56 of the script).  `msgField` is
`entry.get('MESSAGE', '')` seen as an optional field value; `tmpl` is the
prompt template; `env` carries the outcomes of the external effects. -/
def processEntry (env : EntryEnv) (tmpl : String) (msgField : Option FieldValue) :
    ProcResult :=
  match msgField with
  | none => .skippedSilently
  | some .binary => .skippedSilently
  | some (.text m) =>
    if m = "" then .skippedSilently
    else
      match pyFormatMessage tmpl m with
      | none => .crash
      | some _prompt =>
        match env.inference with
        | .interrupt => .interrupted
        | .netFailure => .reportedError
        | .badStatus => .reportedError
        | .badJson => .reportedError
        | .reply respField =>
          let content := pyStrip (respField.getD "")
          if content = "" then .warnedEmpty
          else if env.writeOk then .written (entryWrites m content)
          else .reportedError

/-- Whether `pat` is an initial segment of `l` (Python `str.startswith`,
used to locate occurrences for `str.replace`). -/
def startsWithL : List Char → List Char → Bool
  | [], _ => true
  | _ :: _, [] => false
  | p :: ps, c :: cs => p == c && startsWithL ps cs

/-- Whether `pat` occurs as a contiguous sublist of `l` (Python `in`). -/
def containsSubL (pat : List Char) : List Char → Bool
  | [] => startsWithL pat []
  | c :: cs => startsWithL pat (c :: cs) || containsSubL pat cs

/-- Fuel-driven embedding of Python `str.replace(pat, repl)` for a non-empty
`pat`: replaces every non-overlapping occurrence of `pat`, left to right.
Each step consumes at least one character, so `fuel = length` never runs
out. -/
def replaceGo (pat repl : List Char) : Nat → List Char → List Char
  | _, [] => []
  | 0, l => l
  | fuel + 1, c :: cs =>
    if startsWithL pat (c :: cs) && !pat.isEmpty then
      repl ++ replaceGo pat repl fuel (cs.drop (pat.length - 1))
    else c :: replaceGo pat repl fuel cs

/-- Embedding of Python `str.replace(pat, repl)` on strings (for non-empty
`pat`, the only case the script exercises). -/
def pyReplace (s pat repl : String) : String :=
  String.mk (replaceGo pat.data repl.data s.data.length s.data)

/-- Embedding of line 108 of the script:
`tags_url = args.llama_url.replace('/api/generate', '/api/tags')`. -/
def deriveTagsUrl (llamaUrl : String) : String :=
  pyReplace llamaUrl "/api/generate" "/api/tags"

/-- Outcome of the `requests.get(tags_url, timeout=10)` call and body parse
at lines 110-112: either the parsed list of model names (in catalog order,
an absent or null `models` key modelled as the empty list, exactly how
`models_data.get('models')` treats it at line 114), or a request failure
(network error or non-2xx status, caught at lines 122-124). -/
inductive TagsOutcome where
  | ok (models : List String)
  | requestFailed
deriving DecidableEq

/-- Result of the model-resolution phase of `main`: either a model name to
use, or a fatal `sys.exit` with the given status code. -/
inductive ResolveResult where
  | resolved (name : String)
  | fatalExit (code : Nat)
deriving DecidableEq

/-- Embedding of lines 102-124 of `main`: when auto-detection is needed,
pick the first catalog entry or exit 1.  Python's `if not model_name` treats
both `None` and the empty string as unset. -/
def resolveModel (configured : Option String) (fetch : TagsOutcome) :
    ResolveResult :=
  match configured with
  | some m => if m = "" then autoDetect fetch else .resolved m
  | none => autoDetect fetch
where
  autoDetect : TagsOutcome → ResolveResult
    | .requestFailed => .fatalExit 1
    | .ok [] => .fatalExit 1
    | .ok (m :: _) => .resolved m

/-- Journal scope: the system journal or the current user's journal. -/
inductive Scope where
  | system
  | user
deriving DecidableEq

/-- Embedding of line 129 of the script: the scope used when the operator
gave none, `'system' if is_root else 'user'`.  Also the scope a legacy
`journal.Reader()` (no `flags` support) effectively reads, per the code's
comment at lines 156-157. -/
def defaultScope (isRoot : Bool) : Scope :=
  if isRoot then .system else .user

/-- What opening the journal produced: whether the legacy-version warning
was printed and which scope is effectively read. -/
structure JournalOpen where
  legacyWarning : Bool
  effectiveScope : Scope
deriving DecidableEq

/-- Embedding of lines 140-158 of the script: with `flags` support the
requested scope is opened; on `AttributeError` (legacy python-systemd) a
warning is printed and `journal.Reader()` is opened with default settings,
whose effective scope follows the process's effective UID. -/
def openJournal (hasFlags : Bool) (requested : Scope) (isRoot : Bool) :
    JournalOpen :=
  if hasFlags then { legacyWarning := false, effectiveScope := requested }
  else { legacyWarning := true, effectiveScope := defaultScope isRoot }

/-- Embedding of the startup handling of `--prompt-template` in `main`
(lines 92-100): the parsed value is stored unchanged and handed to the
processing loop; `main` performs no validation of the template before the
loop (an error result, which never occurs, would model a fatal exit). -/
def startupTemplate (tmpl : String) : Option String :=
  some tmpl

/-- One observable event of the main loop at lines 183-195: either
`reader.wait()` is interrupted by the operator, or it returns and a batch of
entries is iterated, each with the outcomes of its external effects. -/
inductive StepInput where
  | waitInterrupted
  | batch (items : List (EntryEnv × Option FieldValue))
deriving DecidableEq

/-- Outcome of running the main loop on a finite prefix of events:
`exited code` when the process terminated, `running` when all supplied
events were consumed and the loop is still waiting. -/
inductive LoopOutcome where
  | exited (code : Nat)
  | running
deriving DecidableEq

/-- Iterates `processing_function` over one batch (the inner `for` at
lines 188-189): returns `some code` when an exception terminates the
process during the batch — 130 for a `KeyboardInterrupt` (caught by the
outer handler at lines 191-195, which calls `sys.exit(130)`), 1 for any
other uncaught exception (CPython's exit status for an unhandled
exception) — and `none` when the whole batch was processed. -/
def processBatch (tmpl : String) : List (EntryEnv × Option FieldValue) → Option Nat
  | [] => none
  | (env, f) :: rest =>
    match processEntry env tmpl f with
    | .crash => some 1
    | .interrupted => some 130
    | _ => processBatch tmpl rest

/-- Embedding of the `while True` loop of `main` (lines 183-195) on a finite
list of events.  A `KeyboardInterrupt` during `reader.wait()` is caught by
the `except KeyboardInterrupt` handler, which exits with status 130. -/
def mainLoop (tmpl : String) : List StepInput → LoopOutcome
  | [] => .running
  | .waitInterrupted :: _ => .exited 130
  | .batch items :: rest =>
    match processBatch tmpl items with
    | some code => .exited code
    | none => mainLoop tmpl rest

/-- A template consisting of the message placeholder alone, used as a
concrete prompt template in witnesses. -/
def phTmpl : String := String.mk (lbrace :: msgName ++ [rbrace])

/-- The output block the claim describes, worded exactly as the claim does
(second header `--- Analysis ---`), for comparison against the code's
`entryWrites`.  This is the one definition taken from the spec rather than
from the source. -/
def specBlockC1 (message content : String) : String :=
  "--- Log Entry ---\n" ++ message ++ "\n--- Analysis ---\n" ++ content ++ "\n\n"

/-- The full block one successful entry appends to the output file: the
concatenation of the two `f.write` arguments of lines 47-48 of the script. -/
def outputBlock (message content : String) : String :=
  "--- Log Entry ---\n" ++ message ++ "\n" ++ "--- Llama Analysis ---\n" ++
    content ++ "\n\n"

/-- Whether a character list contains no brace at all (so, as a template, it
has no replacement field and no escape). -/
def braceFree : List Char → Bool
  | [] => true
  | c :: cs => !(c == lbrace) && !(c == rbrace) && braceFree cs

/-- A concrete prompt template that lacks the message placeholder. -/
def tmplNoPlaceholder : String := "Explain this log entry."

/-- A concrete prompt template whose only replacement field has a name other
than `message`, so Python's `format(message=...)` raises `KeyError` on it. -/
def tmplUnknownField : String := String.mk (lbrace :: "oops".data ++ [rbrace])

/-- Eta identity for strings, used to rebuild a string from its data. -/
theorem mk_data (s : String) : String.mk s.data = s := rfl

/-- Replacing a pattern that does not occur leaves the list unchanged. -/
theorem replaceGo_eq_self (pat repl : List Char) :
    ∀ (fuel : Nat) (l : List Char), l.length ≤ fuel →
      containsSubL pat l = false → replaceGo pat repl fuel l = l := by
  intro fuel
  induction fuel with
  | zero =>
    intro l hl _
    have hnil : l = [] := List.length_eq_zero.mp (Nat.le_zero.mp hl)
    subst hnil
    rfl
  | succ n ih =>
    intro l hl hc
    cases l with
    | nil => rfl
    | cons c cs =>
      simp only [containsSubL, Bool.or_eq_false_iff] at hc
      obtain ⟨h1, h2⟩ := hc
      simp only [replaceGo, h1, Bool.false_and, Bool.false_eq_true, if_false]
      rw [ih cs (by simp only [List.length_cons] at hl; omega) h2]

/-- Rendering a brace-free template returns it unchanged (the message is
dropped). -/
theorem renderGo_braceFree (m : List Char) :
    ∀ (fuel : Nat) (t : List Char), t.length ≤ fuel → braceFree t = true →
      renderGo m fuel t = some t := by
  intro fuel
  induction fuel with
  | zero =>
    intro t ht _
    have hnil : t = [] := List.length_eq_zero.mp (Nat.le_zero.mp ht)
    subst hnil
    rfl
  | succ n ih =>
    intro t ht hb
    cases t with
    | nil => rfl
    | cons c cs =>
      simp only [braceFree, Bool.and_eq_true, Bool.not_eq_true',
        beq_eq_false_iff_ne] at hb
      obtain ⟨⟨h1, h2⟩, h3⟩ := hb
      simp only [renderGo, if_neg h1, if_neg h2]
      rw [ih cs (by simp only [List.length_cons] at ht; omega) h3]
      rfl

/-- Stripping a string made of whitespace only yields the empty string. -/
theorem pyStrip_of_all_space (s : String) (h : s.data.all isPySpace = true) :
    pyStrip s = "" := by
  have h1 : s.data.dropWhile isPySpace = [] :=
    List.dropWhile_eq_nil_iff.mpr (fun x hx => List.all_eq_true.mp h x hx)
  simp [pyStrip, h1]

/-- The two write calls of one successful entry concatenate to the full
output block. -/
theorem join_entryWrites (m c : String) :
    String.join (entryWrites m c) = outputBlock m c := by
  apply String.ext
  simp [String.join, entryWrites, outputBlock, String.data_append,
    List.append_assoc]

/-- C1 (counterexample): for the concrete eligible entry with message `boot`
and analysis text `ok`, the block the code appends is not the block the
claim describes: its second header line is `--- Llama Analysis ---`, not
`--- Analysis ---`. -/
theorem C1_counterexample :
    processEntry ⟨.reply (some "ok"), true⟩ phTmpl (some (.text "boot")) =
      .written (entryWrites "boot" "ok") ∧
    String.join (entryWrites "boot" "ok") ≠ specBlockC1 "boot" "ok" := by
  decide

/-- C1 (amended): for every eligible record whose stripped analysis text is
non-empty (and whose write succeeds), the block appended to the output file
consists of, in order: the header line `--- Log Entry ---`, the original
message, the header line `--- Llama Analysis ---`, the analysis text, and a
blank line. -/
theorem C1_amended (tmpl m r : String)
    (hm : m ≠ "") (hfmt : (pyFormatMessage tmpl m).isSome = true)
    (hc : pyStrip r ≠ "") :
    processEntry ⟨.reply (some r), true⟩ tmpl (some (.text m)) =
      .written (entryWrites m (pyStrip r)) ∧
    String.join (entryWrites m (pyStrip r)) = outputBlock m (pyStrip r) := by
  refine ⟨?_, join_entryWrites m (pyStrip r)⟩
  cases hp : pyFormatMessage tmpl m with
  | none => simp [hp] at hfmt
  | some p => simp [processEntry, hm, hp, hc]

/-- Witness for `C1_amended` at a concrete eligible entry. -/
theorem C1_amended_witness :
    processEntry ⟨.reply (some " ok "), true⟩ phTmpl (some (.text "boot")) =
      .written (entryWrites "boot" (pyStrip " ok ")) ∧
    String.join (entryWrites "boot" (pyStrip " ok ")) =
      outputBlock "boot" (pyStrip " ok ") :=
  C1_amended phTmpl "boot" " ok " (by decide) (by decide) (by decide)

/-- C2 (counterexample): the block for a concrete entry is appended by two
write calls, not by one single write operation. -/
theorem C2_counterexample :
    processEntry ⟨.reply (some "ok"), true⟩ phTmpl (some (.text "boot")) =
      .written (entryWrites "boot" "ok") ∧
    (entryWrites "boot" "ok").length = 2 ∧
    ¬ (entryWrites "boot" "ok").length = 1 := by
  decide

/-- C2 (amended): every output record is appended within one append-mode
open of the target file by exactly two consecutive write calls whose
concatenation is the full block. -/
theorem C2_amended (m c : String) :
    (entryWrites m c).length = 2 ∧
    String.join (entryWrites m c) = outputBlock m c :=
  ⟨rfl, join_entryWrites m c⟩

/-- C3 (counterexample): a failure while rendering the prompt template
(line 31 sits outside the `try` block) escapes `process_entry` uncaught and
terminates the process: with a template whose replacement field is not
`message`, processing the eligible entry `boot` crashes, and the main loop
exits (with CPython's status 1 for an unhandled exception) instead of
continuing. -/
theorem C3_counterexample :
    processEntry ⟨.reply (some "ok"), true⟩ tmplUnknownField
      (some (.text "boot")) = .crash ∧
    mainLoop tmplUnknownField
      [.batch [(⟨.reply (some "ok"), true⟩, some (.text "boot"))]] =
      .exited 1 := by
  decide

/-- C3 (amended): for every entry whose prompt template renders without
error, no failure during its processing (non-2xx status, network or timeout
error, malformed JSON body, output-write failure) terminates the process:
`process_entry` never lets an exception escape and the loop continues with
the next event.  Failures raised while rendering the prompt itself are not
covered: that happens outside the `try` block. -/
theorem C3_amended (env : EntryEnv) (tmpl m : String) (evs : List StepInput)
    (hm : m ≠ "") (hfmt : (pyFormatMessage tmpl m).isSome = true)
    (hni : env.inference ≠ .interrupt) :
    processEntry env tmpl (some (.text m)) ≠ .crash ∧
    mainLoop tmpl (.batch [(env, some (.text m))] :: evs) = mainLoop tmpl evs := by
  cases hp : pyFormatMessage tmpl m with
  | none => simp [hp] at hfmt
  | some p =>
    obtain ⟨inf, wr⟩ := env
    have key : processEntry ⟨inf, wr⟩ tmpl (some (.text m)) ≠ .crash ∧
        processEntry ⟨inf, wr⟩ tmpl (some (.text m)) ≠ .interrupted := by
      cases inf with
      | interrupt => exact absurd rfl hni
      | badStatus => simp [processEntry, hm, hp]
      | netFailure => simp [processEntry, hm, hp]
      | badJson => simp [processEntry, hm, hp]
      | reply respField =>
        by_cases hcs : pyStrip (respField.getD "") = ""
        · simp [processEntry, hm, hp, hcs]
        · cases wr <;> simp [processEntry, hm, hp, hcs]
    refine ⟨key.1, ?_⟩
    have hpb : processBatch tmpl [(⟨inf, wr⟩, some (.text m))] = none := by
      cases hres : processEntry ⟨inf, wr⟩ tmpl (some (.text m)) with
      | crash => exact absurd hres key.1
      | interrupted => exact absurd hres key.2
      | skippedSilently => simp [processBatch, hres]
      | written ws => simp [processBatch, hres]
      | warnedEmpty => simp [processBatch, hres]
      | reportedError => simp [processBatch, hres]
    simp [mainLoop, hpb]

/-- Witness for `C3_amended`: an HTTP 500 on a concrete entry is survived. -/
theorem C3_amended_witness :
    processEntry ⟨.badStatus, true⟩ phTmpl (some (.text "boot")) ≠ .crash ∧
    mainLoop phTmpl [.batch [(⟨.badStatus, true⟩, some (.text "boot"))]] =
      mainLoop phTmpl [] :=
  C3_amended ⟨.badStatus, true⟩ phTmpl "boot" [] (by decide) (by decide)
    (by decide)

/-- C4 (counterexample): a template lacking the message placeholder is not
rejected at startup: `main` stores it unchanged, and the first eligible
entry is processed with it (the prompt simply omits the message). -/
theorem C4_counterexample :
    startupTemplate tmplNoPlaceholder = some tmplNoPlaceholder ∧
    processEntry ⟨.reply (some "ok"), true⟩ tmplNoPlaceholder
      (some (.text "boot")) = .written (entryWrites "boot" "ok") := by
  decide

/-- C4 (amended): the prompt template is not validated at configuration
time: startup accepts any template unchanged, and a template containing no
replacement field at all renders to itself, so every prompt omits the
message. -/
theorem C4_amended (tmpl m : String) (h : braceFree tmpl.data = true) :
    startupTemplate tmpl = some tmpl ∧
    pyFormatMessage tmpl m = some tmpl := by
  refine ⟨rfl, ?_⟩
  unfold pyFormatMessage
  rw [renderGo_braceFree m.data tmpl.data.length tmpl.data (le_refl _) h]
  simp [mk_data]

/-- Witness for `C4_amended` at the concrete placeholder-free template. -/
theorem C4_amended_witness :
    startupTemplate tmplNoPlaceholder = some tmplNoPlaceholder ∧
    pyFormatMessage tmplNoPlaceholder "boot" = some tmplNoPlaceholder :=
  C4_amended tmplNoPlaceholder "boot" (by decide)

/-- C5: an empty inference response text is not an error: the entry yields
the warning result (nothing written, no exception) and the loop continues
with the next event. -/
theorem C5_empty_response (env : EntryEnv) (tmpl m : String)
    (evs : List StepInput)
    (hm : m ≠ "") (hfmt : (pyFormatMessage tmpl m).isSome = true)
    (hresp : env.inference = .reply (some "")) :
    processEntry env tmpl (some (.text m)) = .warnedEmpty ∧
    mainLoop tmpl (.batch [(env, some (.text m))] :: evs) = mainLoop tmpl evs := by
  cases hp : pyFormatMessage tmpl m with
  | none => simp [hp] at hfmt
  | some p =>
    obtain ⟨inf, wr⟩ := env
    simp only at hresp
    subst hresp
    have h0 : pyStrip "" = "" := by decide
    have hpe : processEntry ⟨.reply (some ""), wr⟩ tmpl (some (.text m)) =
        .warnedEmpty := by
      simp [processEntry, hm, hp, h0]
    exact ⟨hpe, by simp [mainLoop, processBatch, hpe]⟩

/-- Witness for `C5_empty_response` at a concrete entry. -/
theorem C5_empty_response_witness :
    processEntry ⟨.reply (some ""), true⟩ phTmpl (some (.text "boot")) =
      .warnedEmpty ∧
    mainLoop phTmpl [.batch [(⟨.reply (some ""), true⟩, some (.text "boot"))]] =
      mainLoop phTmpl [] :=
  C5_empty_response ⟨.reply (some ""), true⟩ phTmpl "boot" [] (by decide)
    (by decide) rfl

/-- C6: when no model is configured and the catalog is non-empty, the
resolver picks the first entry in catalog order; in particular it picks
`llama3` from the catalog `[llama3, phi3]`. -/
theorem C6_first_model (m : String) (rest : List String) :
    resolveModel none (.ok (m :: rest)) = .resolved m ∧
    resolveModel none (.ok ["llama3", "phi3"]) = .resolved "llama3" :=
  ⟨rfl, rfl⟩

/-- C7: an operator interruption received mid-wait or mid-processing makes
the process exit with status 130: `reader.wait()` interrupted hits the
`except KeyboardInterrupt` handler directly, and a `KeyboardInterrupt`
inside `process_entry` passes through its handlers (they only catch
`Exception`) and reaches the same handler. -/
theorem C7_interrupt_exits_130 (tmpl m : String) (wr : Bool)
    (items : List (EntryEnv × Option FieldValue)) (evs : List StepInput)
    (hm : m ≠ "") (hfmt : (pyFormatMessage tmpl m).isSome = true) :
    mainLoop tmpl (.waitInterrupted :: evs) = .exited 130 ∧
    mainLoop tmpl
      (.batch ((⟨.interrupt, wr⟩, some (.text m)) :: items) :: evs) =
      .exited 130 := by
  cases hp : pyFormatMessage tmpl m with
  | none => simp [hp] at hfmt
  | some p =>
    have hpe : processEntry ⟨.interrupt, wr⟩ tmpl (some (.text m)) =
        .interrupted := by
      simp [processEntry, hm, hp]
    exact ⟨rfl, by simp [mainLoop, processBatch, hpe]⟩

/-- Witness for `C7_interrupt_exits_130` at concrete inputs. -/
theorem C7_interrupt_exits_130_witness :
    mainLoop phTmpl [.waitInterrupted] = .exited 130 ∧
    mainLoop phTmpl [.batch [(⟨.interrupt, true⟩, some (.text "boot"))]] =
      .exited 130 :=
  C7_interrupt_exits_130 phTmpl "boot" true [] [] (by decide) (by decide)

/-- C8: the analysis text written is the service response with surrounding
whitespace stripped, and a whitespace-only response is treated exactly like
an empty one: warning result, nothing written. -/
theorem C8_stripped_text (tmpl m r w : String) (wr : Bool)
    (hm : m ≠ "") (hfmt : (pyFormatMessage tmpl m).isSome = true)
    (hr : pyStrip r ≠ "") (hw : w.data.all isPySpace = true) :
    processEntry ⟨.reply (some r), true⟩ tmpl (some (.text m)) =
      .written (entryWrites m (pyStrip r)) ∧
    processEntry ⟨.reply (some w), wr⟩ tmpl (some (.text m)) =
      .warnedEmpty := by
  cases hp : pyFormatMessage tmpl m with
  | none => simp [hp] at hfmt
  | some p =>
    have hws : pyStrip w = "" := pyStrip_of_all_space w hw
    exact ⟨by simp [processEntry, hm, hp, hr],
      by simp [processEntry, hm, hp, hws]⟩

/-- Witness for `C8_stripped_text` at concrete responses; the whitespace-only
response mixes ASCII whitespace with the file separator 1C and a no-break
space, all of which `str.strip()` removes. -/
theorem C8_stripped_text_witness :
    processEntry ⟨.reply (some " ok "), true⟩ phTmpl (some (.text "boot")) =
      .written (entryWrites "boot" (pyStrip " ok ")) ∧
    processEntry ⟨.reply (some " \n\x1c\xa0 "), false⟩ phTmpl
      (some (.text "boot")) = .warnedEmpty :=
  C8_stripped_text phTmpl "boot" " ok " " \n\x1c\xa0 " false (by decide)
    (by decide) (by decide) (by decide)

/-- C9: the models-list URL replaces every occurrence of `/api/generate` in
the service URL with `/api/tags` (shown on a URL with two occurrences and on
the default URL), and a service URL without that substring is used
unchanged. -/
theorem C9_tags_url (u : String)
    (h : containsSubL ("/api/generate".data) u.data = false) :
    deriveTagsUrl u = u ∧
    deriveTagsUrl "http://localhost:11434/api/generate" =
      "http://localhost:11434/api/tags" ∧
    deriveTagsUrl "http://h/api/generate/x/api/generate" =
      "http://h/api/tags/x/api/tags" := by
  refine ⟨?_, by decide, by decide⟩
  unfold deriveTagsUrl pyReplace
  rw [replaceGo_eq_self "/api/generate".data "/api/tags".data
    u.data.length u.data (le_refl _) h]

/-- Witness for `C9_tags_url` at a URL not containing `/api/generate`. -/
theorem C9_tags_url_witness :
    deriveTagsUrl "http://localhost:8080/v1/chat" =
      "http://localhost:8080/v1/chat" ∧
    deriveTagsUrl "http://localhost:11434/api/generate" =
      "http://localhost:11434/api/tags" ∧
    deriveTagsUrl "http://h/api/generate/x/api/generate" =
      "http://h/api/tags/x/api/tags" :=
  C9_tags_url "http://localhost:8080/v1/chat" (by decide)

/-- C10: with a legacy journal library (no flags support) the journal is
opened with default settings: the warning is printed, the effective scope is
the one the effective UID determines, and in particular a non-root operator
requesting the system scope gets the user scope. -/
theorem C10_legacy_scope (requested : Scope) (isRoot : Bool) :
    (openJournal false requested isRoot).legacyWarning = true ∧
    (openJournal false requested isRoot).effectiveScope = defaultScope isRoot ∧
    (openJournal false .system false).effectiveScope = .user :=
  ⟨rfl, rfl, rfl⟩


end JournalReader
